import Mathlib

/-!
Verification of the Linux platform-channel plugin in
`src/linux/log_hood_plugin.cc` (repository `log_hood`).

The plugin registers one Flutter method channel named "log_hood" with the
standard method codec; its handler answers the method "getPlatformVersion"
with a success response wrapping the string "Linux <uname version>", and
answers any other method with the framework's "not implemented" response.

The embedding models the Flutter Linux C API shallowly: `FlValue` is the
channel value type (only the variants the plugin can see), `FlMethodResponse`
the response envelope, `Utsname` the buffer filled by `uname(2)` (the buffer
is zero-initialised by the code, so a failed `uname` call leaves every field
as the empty string), and `MessengerState` records the sequence of responses
sent back through `fl_method_call_respond`, so that "responds exactly once"
is expressible.
-/

/-- A Flutter platform-channel value, restricted to the variants that can
reach this plugin: null (absent arguments), integers and strings. -/
inductive FlValue where
  | null : FlValue
  | int (n : Int) : FlValue
  | string (s : String) : FlValue
deriving DecidableEq, Repr

/-- A method-call response envelope: either a success response wrapping a
value (`fl_method_success_response_new`) or the framework-standard
"not implemented" response (`fl_method_not_implemented_response_new`). -/
inductive FlMethodResponse where
  | success (result : FlValue) : FlMethodResponse
  | notImplemented : FlMethodResponse
deriving DecidableEq, Repr

/-- The `struct utsname` buffer of `<sys/utsname.h>`.  The plugin
zero-initialises it (`struct utsname uname_data = {};`), so every field
defaults to the empty string; a failed `uname` call leaves it that way. -/
structure Utsname where
  sysname : String := ""
  nodename : String := ""
  release : String := ""
  version : String := ""
  machine : String := ""
deriving DecidableEq, Repr

/-- An incoming method call: a method name and an argument payload. -/
structure FlMethodCall where
  name : String
  args : FlValue
deriving DecidableEq, Repr

/-- Embeds `fl_method_call_get_name`. -/
def fl_method_call_get_name (method_call : FlMethodCall) : String :=
  method_call.name

/-- The observable state of the platform messenger: the list of responses
sent so far, in order. -/
structure MessengerState where
  responses : List FlMethodResponse := []
deriving DecidableEq, Repr

/-- Embeds `fl_method_call_respond`: sends one response back through the
channel, i.e. appends it to the messenger's response log. -/
def fl_method_call_respond (st : MessengerState)
    (response : FlMethodResponse) : MessengerState :=
  { st with responses := st.responses ++ [response] }

/-- Embeds `get_platform_version` (src/linux/log_hood_plugin.cc:38-44):
reads the zero-initialised `utsname` buffer after the `uname` call (whose
return value the code ignores), formats `"Linux %s"` with the buffer's
`version` field, and wraps it in a success response. -/
def get_platform_version (uname_data : Utsname) : FlMethodResponse :=
  FlMethodResponse.success (FlValue.string ("Linux " ++ uname_data.version))

/-- Embeds `log_hood_plugin_handle_method_call`
(src/linux/log_hood_plugin.cc:22-36): compares the call's method name with
"getPlatformVersion" (`strcmp`), builds either the platform-version success
response or the "not implemented" response, and responds exactly once.
`uname_data` is the buffer contents produced by the `uname` call inside
`get_platform_version`. -/
def log_hood_plugin_handle_method_call (uname_data : Utsname)
    (method_call : FlMethodCall) (st : MessengerState) : MessengerState :=
  let method := fl_method_call_get_name method_call
  let response :=
    if method = "getPlatformVersion" then get_platform_version uname_data
    else FlMethodResponse.notImplemented
  fl_method_call_respond st response

/-- Embeds `method_call_cb` (src/linux/log_hood_plugin.cc:56-60): the
channel callback delegates every incoming call to the handler. -/
def method_call_cb (uname_data : Utsname) (method_call : FlMethodCall)
    (st : MessengerState) : MessengerState :=
  log_hood_plugin_handle_method_call uname_data method_call st

/-- A method codec; the plugin only ever builds the standard one
(`fl_standard_method_codec_new`). -/
inductive FlMethodCodec where
  | standard : FlMethodCodec
deriving DecidableEq, Repr

/-- A method channel: its name, its codec, and the handler attached to it
(none until `fl_method_channel_set_method_call_handler` is called). -/
structure FlMethodChannel where
  name : String
  codec : FlMethodCodec
  handler : Option (Utsname → FlMethodCall → MessengerState → MessengerState)
    := none

/-- Embeds `fl_method_channel_new`: a fresh channel with the given name and
codec and no handler yet. -/
def fl_method_channel_new (name : String) (codec : FlMethodCodec) :
    FlMethodChannel :=
  { name := name, codec := codec }

/-- Embeds `fl_method_channel_set_method_call_handler`: attaches a handler
to the channel. -/
def fl_method_channel_set_method_call_handler (channel : FlMethodChannel)
    (h : Utsname → FlMethodCall → MessengerState → MessengerState) :
    FlMethodChannel :=
  { channel with handler := some h }

/-- A plugin registrar, observed through the list of method channels
registered on its messenger. -/
structure FlPluginRegistrar where
  channels : List FlMethodChannel := []

/-- Embeds `log_hood_plugin_register_with_registrar`
(src/linux/log_hood_plugin.cc:62-76): builds the standard codec, creates
the channel named "log_hood" on the registrar's messenger, and attaches
`method_call_cb` as its method-call handler. -/
def log_hood_plugin_register_with_registrar (registrar : FlPluginRegistrar) :
    FlPluginRegistrar :=
  let codec := FlMethodCodec.standard
  let channel := fl_method_channel_new "log_hood" codec
  let channel := fl_method_channel_set_method_call_handler channel
    method_call_cb
  { registrar with channels := registrar.channels ++ [channel] }

/-- C1: a call whose method name is exactly "getPlatformVersion" is answered
with a success response containing the single string value
"Linux <uname version>" — the OS name, a space, and the version string from
the `uname` buffer. -/
theorem handle_getPlatformVersion_success (uname_data : Utsname)
    (method_call : FlMethodCall) (st : MessengerState)
    (h : method_call.name = "getPlatformVersion") :
    (log_hood_plugin_handle_method_call uname_data method_call st).responses
      = st.responses ++
        [FlMethodResponse.success
          (FlValue.string ("Linux " ++ uname_data.version))] := by
  simp [log_hood_plugin_handle_method_call, fl_method_call_get_name, h,
    get_platform_version, fl_method_call_respond]

/-- Witness for C1: the handler applied to a "getPlatformVersion" call with
version string "6.8.0" responds with success "Linux 6.8.0". -/
theorem handle_getPlatformVersion_success_witness :
    (log_hood_plugin_handle_method_call { version := "6.8.0" }
        ⟨"getPlatformVersion", FlValue.null⟩ {}).responses
      = [FlMethodResponse.success (FlValue.string "Linux 6.8.0")] :=
  handle_getPlatformVersion_success { version := "6.8.0" }
    ⟨"getPlatformVersion", FlValue.null⟩ {} rfl

/-- C2: a call whose method name is anything other than
"getPlatformVersion" is answered with the "not implemented" response, never
with a success envelope. -/
theorem handle_unknown_method_not_implemented (uname_data : Utsname)
    (method_call : FlMethodCall) (st : MessengerState)
    (h : method_call.name ≠ "getPlatformVersion") :
    (log_hood_plugin_handle_method_call uname_data method_call st).responses
        = st.responses ++ [FlMethodResponse.notImplemented] ∧
      ∀ v : FlValue,
        (log_hood_plugin_handle_method_call uname_data method_call
            st).responses
          ≠ st.responses ++ [FlMethodResponse.success v] := by
  constructor
  · simp [log_hood_plugin_handle_method_call, fl_method_call_get_name, h,
      fl_method_call_respond]
  · intro v
    simp [log_hood_plugin_handle_method_call, fl_method_call_get_name, h,
      fl_method_call_respond]

/-- Witness for C2: the handler applied to a call named "foo" responds with
the "not implemented" response and with no success envelope. -/
theorem handle_unknown_method_not_implemented_witness :
    (log_hood_plugin_handle_method_call {} ⟨"foo", FlValue.null⟩
          {}).responses
        = ({} : MessengerState).responses ++
            [FlMethodResponse.notImplemented] ∧
      ∀ v : FlValue,
        (log_hood_plugin_handle_method_call {} ⟨"foo", FlValue.null⟩
            {}).responses
          ≠ ({} : MessengerState).responses ++
              [FlMethodResponse.success v] :=
  handle_unknown_method_not_implemented {} ⟨"foo", FlValue.null⟩ {}
    (by decide)

/-- C3: every "getPlatformVersion" call is answered with a success envelope
wrapping a non-empty string, whatever the `uname` buffer holds — in
particular also when the version field is the empty string (a failed
`uname` call on the zero-initialised buffer). -/
theorem handle_getPlatformVersion_nonempty (uname_data : Utsname)
    (args : FlValue) (st : MessengerState) :
    ∃ s : String, s ≠ "" ∧
      (log_hood_plugin_handle_method_call uname_data
          ⟨"getPlatformVersion", args⟩ st).responses
        = st.responses ++ [FlMethodResponse.success (FlValue.string s)] := by
  refine ⟨"Linux " ++ uname_data.version, ?_, ?_⟩
  · intro hs
    have : ("Linux " ++ uname_data.version).length = 0 := by rw [hs]; rfl
    rw [String.length_append] at this
    have h6 : "Linux ".length = 6 := rfl
    omega
  · simp [log_hood_plugin_handle_method_call, fl_method_call_get_name,
      get_platform_version, fl_method_call_respond]

/-- C4: the handler's only error path is the "not implemented" response,
produced if and only if the method name differs from "getPlatformVersion";
a "getPlatformVersion" call never yields it, for every `uname` outcome,
including the failed call that leaves the buffer's fields empty. -/
theorem handle_not_implemented_iff_unknown (uname_data : Utsname)
    (method_call : FlMethodCall) (st : MessengerState) :
    (log_hood_plugin_handle_method_call uname_data method_call st).responses
        = st.responses ++ [FlMethodResponse.notImplemented]
      ↔ method_call.name ≠ "getPlatformVersion" := by
  by_cases h : method_call.name = "getPlatformVersion"
  · simp [log_hood_plugin_handle_method_call, fl_method_call_get_name, h,
      get_platform_version, fl_method_call_respond]
  · simp [log_hood_plugin_handle_method_call, fl_method_call_get_name, h,
      fl_method_call_respond]

/-- C5: every invocation of the handler responds exactly once: the result
is one `fl_method_call_respond` applied to the incoming state, and the
response log grows by exactly one entry. -/
theorem handle_responds_exactly_once (uname_data : Utsname)
    (method_call : FlMethodCall) (st : MessengerState) :
    (∃ r : FlMethodResponse,
        log_hood_plugin_handle_method_call uname_data method_call st
          = fl_method_call_respond st r) ∧
      (log_hood_plugin_handle_method_call uname_data method_call
          st).responses.length
        = st.responses.length + 1 := by
  constructor
  · exact ⟨_, rfl⟩
  · simp [log_hood_plugin_handle_method_call, fl_method_call_respond]

/-- C6: the dispatcher is stateless and deterministic: two invocations with
the same method name and the same `uname` outcome append one and the same
response, whatever states (histories of earlier calls) they run in. -/
theorem handle_deterministic_stateless (uname_data : Utsname)
    (call₁ call₂ : FlMethodCall) (st₁ st₂ : MessengerState)
    (h : call₁.name = call₂.name) :
    ∃ r : FlMethodResponse,
      log_hood_plugin_handle_method_call uname_data call₁ st₁
          = fl_method_call_respond st₁ r ∧
        log_hood_plugin_handle_method_call uname_data call₂ st₂
          = fl_method_call_respond st₂ r := by
  refine ⟨if call₁.name = "getPlatformVersion" then
    get_platform_version uname_data else FlMethodResponse.notImplemented,
    rfl, ?_⟩
  simp only [log_hood_plugin_handle_method_call, fl_method_call_get_name, h]

/-- Witness for C6: a "getPlatformVersion" call on the empty history and on
a one-response history append the same success response. -/
theorem handle_deterministic_stateless_witness :
    ∃ r : FlMethodResponse,
      log_hood_plugin_handle_method_call {}
            ⟨"getPlatformVersion", FlValue.null⟩ {}
          = fl_method_call_respond {} r ∧
        log_hood_plugin_handle_method_call {}
            ⟨"getPlatformVersion", FlValue.int 7⟩
            { responses := [FlMethodResponse.notImplemented] }
          = fl_method_call_respond
              { responses := [FlMethodResponse.notImplemented] } r :=
  handle_deterministic_stateless {} ⟨"getPlatformVersion", FlValue.null⟩
    ⟨"getPlatformVersion", FlValue.int 7⟩ {}
    { responses := [FlMethodResponse.notImplemented] } rfl

/-- C7: method-name matching is exact and case-sensitive: every name that
differs from "getPlatformVersion" in any character — also only in letter
case or by surrounding whitespace — gets the "not implemented" response. -/
theorem handle_match_case_sensitive (uname_data : Utsname)
    (method_call : FlMethodCall) (st : MessengerState)
    (h : method_call.name ≠ "getPlatformVersion") :
    (log_hood_plugin_handle_method_call uname_data method_call st).responses
      = st.responses ++ [FlMethodResponse.notImplemented] := by
  simp [log_hood_plugin_handle_method_call, fl_method_call_get_name, h,
    fl_method_call_respond]

/-- Witness for C7: both "GetPlatformVersion" (case variant) and
" getPlatformVersion" (leading whitespace) get the "not implemented"
response. -/
theorem handle_match_case_sensitive_witness :
    (log_hood_plugin_handle_method_call {}
          ⟨"GetPlatformVersion", FlValue.null⟩ {}).responses
        = ({} : MessengerState).responses ++
            [FlMethodResponse.notImplemented] ∧
      (log_hood_plugin_handle_method_call {}
          ⟨" getPlatformVersion", FlValue.null⟩ {}).responses
        = ({} : MessengerState).responses ++
            [FlMethodResponse.notImplemented] :=
  ⟨handle_match_case_sensitive {} ⟨"GetPlatformVersion", FlValue.null⟩ {}
      (by decide),
    handle_match_case_sensitive {} ⟨" getPlatformVersion", FlValue.null⟩ {}
      (by decide)⟩

/-- C8: the response is independent of the call's arguments: two calls with
the same method name but different (or absent) argument payloads produce
identical outcomes — the handler never reads the arguments. -/
theorem handle_independent_of_args (uname_data : Utsname) (name : String)
    (args₁ args₂ : FlValue) (st : MessengerState) :
    log_hood_plugin_handle_method_call uname_data ⟨name, args₁⟩ st
      = log_hood_plugin_handle_method_call uname_data ⟨name, args₂⟩ st := rfl

/-- C9: registration attaches exactly one method channel, named "log_hood",
with the standard method codec, whose handler is `method_call_cb`, which is
exactly the dispatcher `log_hood_plugin_handle_method_call`. -/
theorem register_attaches_single_channel (registrar : FlPluginRegistrar) :
    (log_hood_plugin_register_with_registrar registrar).channels
        = registrar.channels ++
            [{ name := "log_hood", codec := FlMethodCodec.standard,
               handler := some method_call_cb }] ∧
      method_call_cb = log_hood_plugin_handle_method_call := by
  constructor
  · rfl
  · rfl
